import Mathlib

/-!
Shallow embedding of the provider registry, service composition and request
dispatcher of the `auth` package (src/auth.go), together with theorems about
the claims of the specification.

Opaque collaborators (token service, provider handlers, avatar store) are
consumed, not implemented, by the code under verification; they are modelled
by presence markers (`Option Unit`) or small records of the observable fields.
-/

namespace Auth

/-- Stand-in for the opaque avatar store collaborator (`avatar.Store`). -/
def AvatarStore : Type := Unit

deriving instance Inhabited for AvatarStore

deriving instance DecidableEq for AvatarStore

/-- `avatar.Proxy`: pairs an avatar store with a root URL and a fixed mount path. -/
structure AvatarProxy where
  Store : AvatarStore
  URL : String
  RoutePath : String
  deriving DecidableEq, Inhabited

/-- `Opts` of src/auth.go: the full configuration record.  Nil-able collaborator
interfaces (`SecretReader`, `ClaimsUpd`, `Validator`, `AvatarStore`) are modelled
by `Option Unit`: only their presence is observable to this core.  Durations are
modelled as naturals (nanosecond counts). -/
structure Opts where
  SecretReader : Option Unit
  ClaimsUpd : Option Unit
  SecureCookies : Bool
  TokenDuration : Nat
  CookieDuration : Nat
  DisableXSRF : Bool
  JWTCookieName : String
  JWTHeaderKey : String
  XSRFCookieName : String
  XSRFHeaderKey : String
  Issuer : String
  URL : String
  Validator : Option Unit
  DevPasswd : String
  AvatarStore : Option AvatarStore
  deriving DecidableEq, Inhabited

/-- The options record passed to the token-service collaborator
(`token.Opts` as filled in by `NewService`).  The token service itself is an
opaque collaborator; the handle it returns is identified with the options it
was built from. -/
structure TokenOpts where
  SecretReader : Option Unit
  ClaimsUpd : Option Unit
  SecureCookies : Bool
  TokenDuration : Nat
  CookieDuration : Nat
  DisableXSRF : Bool
  JWTCookieName : String
  JWTHeaderKey : String
  XSRFCookieName : String
  XSRFHeaderKey : String
  Issuer : String
  deriving DecidableEq, Inhabited

/-- The supported provider kinds (the concrete constructors of the `provider`
package that src/auth.go calls). -/
inductive ProviderKind where
  | github
  | google
  | facebook
  | dev
  deriving DecidableEq, Inhabited

/-- `provider.Params`: the shared parameter record `AddProvider` builds for
every constructor call. -/
structure Params where
  URL : String
  JwtService : TokenOpts
  Issuer : String
  AvatarProxy : Option AvatarProxy
  Cid : String
  Csecret : String
  deriving DecidableEq, Inhabited

/-- Modelled from the spec: `provider.Service`, the provider descriptor
(the `provider` package is outside the sources in scope).  Per the spec each
provider exposes name, client id, client secret, issuer and a handler; the
handler's behaviour is identified by the kind of the constructor that built
the descriptor. -/
structure ProviderService where
  Name : String
  Cid : String
  Csecret : String
  Issuer : String
  kind : ProviderKind
  deriving DecidableEq, Inhabited

/-- Modelled from the spec: `provider.NewGithub`, a kind-specific constructor
applied to the shared `Params`. -/
def NewGithub (p : Params) : ProviderService :=
  { Name := "github", Cid := p.Cid, Csecret := p.Csecret, Issuer := p.Issuer,
    kind := ProviderKind.github }

/-- Modelled from the spec: `provider.NewGoogle`. -/
def NewGoogle (p : Params) : ProviderService :=
  { Name := "google", Cid := p.Cid, Csecret := p.Csecret, Issuer := p.Issuer,
    kind := ProviderKind.google }

/-- Modelled from the spec: `provider.NewFacebook`. -/
def NewFacebook (p : Params) : ProviderService :=
  { Name := "facebook", Cid := p.Cid, Csecret := p.Csecret, Issuer := p.Issuer,
    kind := ProviderKind.facebook }

/-- Modelled from the spec: `provider.NewDev`.  The repository's own test
asserts the resulting descriptor carries name "dev" and the params' client
id, client secret and issuer. -/
def NewDev (p : Params) : ProviderService :=
  { Name := "dev", Cid := p.Cid, Csecret := p.Csecret, Issuer := p.Issuer,
    kind := ProviderKind.dev }

/-- `middleware.Authenticator` as assembled by src/auth.go: token-service
handle, optional validator, optional dev password, and a `Providers` field
that `AddProvider` reassigns after each append. -/
structure Authenticator where
  JWTService : TokenOpts
  Validator : Option Unit
  DevPasswd : String
  Providers : List ProviderService
  deriving DecidableEq, Inhabited

/-- `Service` of src/auth.go. -/
structure Service where
  opts : Opts
  jwtService : TokenOpts
  providers : List ProviderService
  authMiddleware : Authenticator
  avatarProxy : Option AvatarProxy
  issuer : String
  deriving DecidableEq, Inhabited

/-- `NewService` of src/auth.go: checks the mandatory `SecretReader` first
(fail-fast), builds the token-service handle from the options, assembles the
middleware, sets the issuer fallback only when `opts.Issuer` is empty, and
builds the avatar proxy binding only when a store was supplied.  Go zero
values give the unassigned fields: empty `providers` slice and empty
`issuer` string. -/
def NewService (opts : Opts) : Except String Service :=
  if opts.SecretReader = none then
    Except.error "SecretReader not defined"
  else
    let jwtService : TokenOpts :=
      { SecretReader := opts.SecretReader
        ClaimsUpd := opts.ClaimsUpd
        SecureCookies := opts.SecureCookies
        TokenDuration := opts.TokenDuration
        CookieDuration := opts.CookieDuration
        DisableXSRF := opts.DisableXSRF
        JWTCookieName := opts.JWTCookieName
        JWTHeaderKey := opts.JWTHeaderKey
        XSRFCookieName := opts.XSRFCookieName
        XSRFHeaderKey := opts.XSRFHeaderKey
        Issuer := opts.Issuer }
    let res : Service :=
      { opts := opts
        jwtService := jwtService
        providers := []
        authMiddleware :=
          { JWTService := jwtService
            Validator := opts.Validator
            DevPasswd := opts.DevPasswd
            Providers := [] }
        avatarProxy := none
        issuer := "" }
    let res := if opts.Issuer = "" then { res with issuer := "go-pkgz/auth" } else res
    let res :=
      if opts.AvatarStore.isSome then
        let proxy : AvatarProxy := { Store := (), URL := opts.URL, RoutePath := "/avatar" }
        { res with avatarProxy := some proxy }
      else res
    Except.ok res

/-- ASCII lower-casing of one character, the behaviour of Go's
`strings.ToLower` on the ASCII provider-kind names src/auth.go compares
against. -/
def charToLower (c : Char) : Char :=
  if 'A' ≤ c ∧ c ≤ 'Z' then Char.ofNat (c.toNat + 32) else c

/-- `strings.ToLower` restricted to ASCII. -/
def goToLower (s : String) : String :=
  String.mk (s.toList.map charToLower)

/-- The shared `provider.Params` record `AddProvider` builds from the
service's state and the caller's client id/secret. -/
def mkParams (s : Service) (cid csecret : String) : Params :=
  { URL := s.opts.URL
    JwtService := s.jwtService
    Issuer := s.issuer
    AvatarProxy := s.avatarProxy
    Cid := cid
    Csecret := csecret }

/-- `AddProvider` of src/auth.go: lower-cases the name, maps it through the
fixed switch of supported kinds (note: case "yandex" calls
`provider.NewFacebook`), appends the descriptor to the registry, and then
reassigns the middleware's `Providers` field to the current registry.
Unknown names return without any mutation. -/
def AddProvider (s : Service) (name cid csecret : String) : Service :=
  let p := mkParams s cid csecret
  let lower := goToLower name
  let update (d : ProviderService) : Service :=
    let provs := s.providers ++ [d]
    { s with providers := provs,
             authMiddleware := { s.authMiddleware with Providers := provs } }
  if lower = "github" then update (NewGithub p)
  else if lower = "google" then update (NewGoogle p)
  else if lower = "facebook" then update (NewFacebook p)
  else if lower = "yandex" then update (NewFacebook p)
  else if lower = "dev" then update (NewDev p)
  else s

/-- `Middleware` of src/auth.go: returns the service's authenticator value
(a struct copy in Go; the `Providers` field it carries is the slice assigned
by the most recent `AddProvider`, and later reassignments do not alter a
previously returned copy). -/
def Middleware (s : Service) : Authenticator :=
  s.authMiddleware

/-- `Provider` of src/auth.go: linear scan for the first descriptor whose
name matches exactly; otherwise the error `provider <name> not found`. -/
def Provider (s : Service) (name : String) : Except String ProviderService :=
  match s.providers.find? (fun p => p.Name = name) with
  | some p => Except.ok p
  | none => Except.error ("provider " ++ name ++ " not found")

/-- The response body written by the dispatcher itself.  `rest.RenderJSON` is
an opaque collaborator; its output is modelled by the value handed to it:
a JSON array of strings for the provider listing, a JSON object with one
"error" key for dispatch failures. -/
inductive Body where
  | empty
  | jsonList (names : List String)
  | jsonError (msg : String)
  deriving DecidableEq, Inhabited

/-- The observable outcome of running the provider-dispatch handler on one
request: a response written directly by the dispatcher, delegation of the
unmodified request to one provider descriptor's handler, or an unguarded
runtime panic (empty-slice index / nil dereference). -/
inductive Outcome where
  | respond (status : Nat) (body : Body)
  | delegate (p : ProviderService)
  | panic
  deriving DecidableEq, Inhabited

/-- Go's `strings.Split` on the separator "/": split of a character list at
every slash, keeping empty fields (so the empty string splits to one empty
field). -/
def splitOnSlash : List Char → List (List Char)
  | [] => [[]]
  | c :: rest =>
    match splitOnSlash rest with
    | [] => [[c]]
    | seg :: segs =>
      if c = '/' then [] :: seg :: segs else (c :: seg) :: segs

/-- `strings.Split(path, "/")` as a function on strings. -/
def goSplit (path : String) : List String :=
  (splitOnSlash path.toList).map (fun cs => String.mk cs)

/-- The provider-dispatch handler built by `Handlers` in src/auth.go, as a
function from the request path to the observable outcome.  It mirrors the
source line by line: the sub-2-segments guard (400, empty body), the "list"
special case (JSON array of registered names), the "logout" special case
(unguarded index 0 of the registry: a panic when the registry is empty),
and the lookup of the second-to-last segment (400 with a JSON error body
mentioning "not supported" when the lookup fails). -/
def providerHandler (s : Service) (path : String) : Outcome :=
  let elems := goSplit path
  if elems.length < 2 then
    Outcome.respond 400 Body.empty
  else if elems[elems.length - 1]! = "list" then
    Outcome.respond 200 (Body.jsonList (s.providers.map (fun p => p.Name)))
  else if elems[elems.length - 1]! = "logout" then
    match s.providers with
    | [] => Outcome.panic
    | p :: _ => Outcome.delegate p
  else
    let provName := elems[elems.length - 2]!
    match Provider s provName with
    | Except.ok p => Outcome.delegate p
    | Except.error _ =>
        Outcome.respond 400 (Body.jsonError ("provider " ++ provName ++ " not supported"))

/-- The observable effect of invoking the avatar handler `Handlers` returns.
Modelled from the spec: `avatar.Proxy.Handler` is outside the sources in
scope, and the spec states that dispatching to an absent avatar binding is a
nil dereference (src/auth.go wraps `s.avatarProxy.Handler` unconditionally,
binding the method to a nil receiver when no store was configured). -/
inductive AvatarOutcome where
  | serve (proxy : AvatarProxy)
  | panic
  deriving DecidableEq, Inhabited

/-- The avatar half of `Handlers`: delegation to the proxy when present,
a panic on invocation when absent. -/
def avatarHandler (s : Service) : AvatarOutcome :=
  match s.avatarProxy with
  | some pr => AvatarOutcome.serve pr
  | none => AvatarOutcome.panic

/-- `Handlers` of src/auth.go: the pair of the provider-dispatch handler and
the avatar handler. -/
def Handlers (s : Service) : (String → Outcome) × AvatarOutcome :=
  (providerHandler s, avatarHandler s)

/-- The descriptor (if any) that `AddProvider` appends for a given name:
the same fixed switch of supported kinds as `AddProvider`, as a partial map. -/
def expectedDescriptor (s : Service) (name cid csecret : String) : Option ProviderService :=
  let p := mkParams s cid csecret
  let lower := goToLower name
  if lower = "github" then some (NewGithub p)
  else if lower = "google" then some (NewGoogle p)
  else if lower = "facebook" then some (NewFacebook p)
  else if lower = "yandex" then some (NewFacebook p)
  else if lower = "dev" then some (NewDev p)
  else none

/-- A sequence of `AddProvider` calls, applied in order. -/
def addAll (s : Service) (regs : List (String × String × String)) : Service :=
  regs.foldl (fun acc r => AddProvider acc r.1 r.2.1 r.2.2) s

/-- A configuration with a secret reader, no issuer, no avatar store
(the shape of the repository's own `TestProvider` options). -/
def testOpts : Opts :=
  { SecretReader := some (), ClaimsUpd := none, SecureCookies := false,
    TokenDuration := 0, CookieDuration := 0, DisableXSRF := false,
    JWTCookieName := "", JWTHeaderKey := "", XSRFCookieName := "",
    XSRFHeaderKey := "", Issuer := "", URL := "http://127.0.0.1:8080",
    Validator := none, DevPasswd := "", AvatarStore := none }

/-- The service `NewService testOpts` returns: empty registry, no avatar
binding. -/
def svc0 : Service := ((NewService testOpts).toOption).get!

theorem addProvider_eq (s : Service) (name cid csecret : String) :
    AddProvider s name cid csecret =
      match expectedDescriptor s name cid csecret with
      | some d =>
          { s with providers := s.providers ++ [d],
                   authMiddleware :=
                     { s.authMiddleware with Providers := s.providers ++ [d] } }
      | none => s := by
  unfold AddProvider expectedDescriptor
  repeat' split <;> simp_all

theorem mkParams_addProvider (s : Service) (n c cs cid csecret : String) :
    mkParams (AddProvider s n c cs) cid csecret = mkParams s cid csecret := by
  rw [addProvider_eq]
  cases expectedDescriptor s n c cs <;> rfl

theorem expectedDescriptor_addProvider (s : Service) (n c cs name cid csecret : String) :
    expectedDescriptor (AddProvider s n c cs) name cid csecret
      = expectedDescriptor s name cid csecret := by
  unfold expectedDescriptor
  rw [mkParams_addProvider]

theorem addProvider_providers (s : Service) (name cid csecret : String) :
    (AddProvider s name cid csecret).providers
      = s.providers ++ (expectedDescriptor s name cid csecret).toList := by
  rw [addProvider_eq]
  cases expectedDescriptor s name cid csecret <;> simp

theorem addAll_providers (s : Service) (regs : List (String × String × String)) :
    (addAll s regs).providers
      = s.providers ++ regs.filterMap (fun r => expectedDescriptor s r.1 r.2.1 r.2.2) := by
  induction regs generalizing s with
  | nil => simp [addAll]
  | cons r rs ih =>
      have step : addAll s (r :: rs) = addAll (AddProvider s r.1 r.2.1 r.2.2) rs := rfl
      rw [step, ih, addProvider_providers, List.filterMap_cons]
      have hexp : ∀ n c cs, expectedDescriptor (AddProvider s r.1 r.2.1 r.2.2) n c cs
          = expectedDescriptor s n c cs := fun n c cs => expectedDescriptor_addProvider ..
      cases h : expectedDescriptor s r.1 r.2.1 r.2.2 <;>
        simp [h, hexp, List.append_assoc]

/-- C1: the provider-dispatch handler returned by `Handlers`, run on a
request ending in the literal "logout" against a service whose registry is
empty, does not produce a defined fallback response: it indexes the first
element of the empty registry and panics.  (Evaluation of the code at the
failing input.) -/
theorem logout_empty_registry_panics :
    svc0.providers = [] ∧ (Handlers svc0).1 "/auth/logout" = Outcome.panic := by
  decide

/-- C2: for a service constructed without an avatar store, the avatar-dispatch
handler returned by `Handlers` is not a well-defined handler: `Handlers`
wraps the handler method of the absent (nil) proxy, and invoking it panics
instead of responding 404.  (Evaluation of the code at the failing input.) -/
theorem avatar_handler_absent_panics :
    testOpts.AvatarStore = none ∧ (Handlers svc0).2 = AvatarOutcome.panic := by
  decide

/-- C3 counterexample: the middleware value obtained from `Middleware` before
an `AddProvider` call is not observationally equivalent in its provider view
to the one obtained after it: the earlier value keeps the empty provider
slice while the later one carries the appended descriptor. -/
theorem middleware_before_after_differ :
    (Middleware svc0).Providers
      ≠ (Middleware (AddProvider svc0 "dev" "cid" "csecret")).Providers := by
  decide

/-- C3 amended: the middleware value is a snapshot taken at the `Middleware`
call: whenever the middleware view agrees with the registry (as it does for
every service reachable from `NewService`), the view obtained after an
`AddProvider` call equals the view obtained before it extended with exactly
the appended descriptor — so the value obtained after reflects the grown
registry while a value obtained before keeps its shorter view. -/
theorem middleware_view_snapshot_append (s : Service) (name cid csecret : String)
    (h : (Middleware s).Providers = s.providers) :
    (Middleware (AddProvider s name cid csecret)).Providers
      = (Middleware s).Providers ++ (expectedDescriptor s name cid csecret).toList := by
  have h' : s.authMiddleware.Providers = s.providers := h
  rw [addProvider_eq]
  cases expectedDescriptor s name cid csecret <;> simp [Middleware, h']

/-- C3 witness: the amended statement at the concrete service `svc0` and the
"dev" registration. -/
theorem middleware_view_snapshot_append_witness :
    (Middleware svc0).Providers = svc0.providers ∧
    (Middleware (AddProvider svc0 "dev" "cid" "csecret")).Providers
      = (Middleware svc0).Providers
          ++ (expectedDescriptor svc0 "dev" "cid" "csecret").toList :=
  ⟨by decide, middleware_view_snapshot_append svc0 "dev" "cid" "csecret" (by decide)⟩

/-- C4: `NewService` resolves the issuer to "go-pkgz/auth" when
`config.Issuer` is empty, but when `config.Issuer` is the non-empty
"my-test-app" the resolved issuer is the empty string, not "my-test-app":
the construction only assigns the fallback and never copies a non-empty
configured issuer.  (Evaluation of the code at the failing input.) -/
theorem issuer_resolution_drops_configured_value :
    (NewService { testOpts with Issuer := "my-test-app" }).toOption.map
        (fun s => s.issuer) = some "" ∧
    (NewService testOpts).toOption.map (fun s => s.issuer) = some "go-pkgz/auth" := by
  decide

/-- C5: `NewService` fails — with exactly the "SecretReader not defined"
error and no partial service — if and only if the mandatory secret reader is
absent; with a secret reader supplied it returns an assembled service and no
error. -/
theorem newService_secret_check (opts : Opts) :
    (NewService opts = Except.error "SecretReader not defined"
        ↔ opts.SecretReader = none) ∧
    ((∃ s, NewService opts = Except.ok s) ↔ opts.SecretReader ≠ none) := by
  by_cases h : opts.SecretReader = none <;> simp [NewService, h]

/-- C9: `AddProvider` with the name "yandex" appends the descriptor built by
the facebook constructor `NewFacebook` applied to the shared params — not a
yandex-specific constructor. -/
theorem yandex_uses_facebook_constructor (s : Service) (cid csecret : String) :
    (AddProvider s "yandex" cid csecret).providers
      = s.providers ++ [NewFacebook (mkParams s cid csecret)] := by
  rw [addProvider_providers]
  have h : expectedDescriptor s "yandex" cid csecret
      = some (NewFacebook (mkParams s cid csecret)) := by
    unfold expectedDescriptor
    rw [if_neg (by decide), if_neg (by decide), if_neg (by decide), if_pos (by decide)]
  rw [h]
  rfl

/-- C6 counterexample: dispatching the path "/singleseg" does not yield a 400
with an empty body: "/singleseg" splits on "/" into the two segments "" and
"singleseg", so the handler takes the unknown-provider branch and responds
400 with a JSON error body. -/
theorem singleseg_dispatch_not_empty_body :
    providerHandler svc0 "/singleseg"
        = Outcome.respond 400 (Body.jsonError "provider  not supported") ∧
    providerHandler svc0 "/singleseg" ≠ Outcome.respond 400 Body.empty := by
  decide

/-- C6 amended: for every request whose path splits on "/" into fewer than two
segments (e.g. the path "singleseg" with no slash at all), the
provider-dispatch handler responds 400 with an empty body; "/singleseg"
itself splits into two segments and instead gets 400 with a JSON error body. -/
theorem short_split_bad_request (s : Service) (path : String)
    (h : (goSplit path).length < 2) :
    providerHandler s path = Outcome.respond 400 Body.empty := by
  simp only [providerHandler]
  rw [if_pos h]

/-- C6 witness: the amended statement at the slash-free path "singleseg". -/
theorem short_split_bad_request_witness :
    (goSplit "singleseg").length < 2 ∧
    providerHandler svc0 "singleseg" = Outcome.respond 400 Body.empty :=
  ⟨by decide, short_split_bad_request svc0 "singleseg" (by decide)⟩

/-- C7: when no registered descriptor carries the requested name, the direct
lookup `Provider` returns exactly the error "provider <name> not found",
while dispatching a request whose second-to-last segment names that provider
(and whose final segment is neither "list" nor "logout") responds 400 with
the JSON body whose error field is "provider <name> not supported"; the two
literal messages are distinct. -/
theorem unknown_provider_error_strings (s : Service) (name path : String)
    (hn : ∀ p ∈ s.providers, p.Name ≠ name)
    (h2 : 2 ≤ (goSplit path).length)
    (hlist : (goSplit path)[(goSplit path).length - 1]! ≠ "list")
    (hlogout : (goSplit path)[(goSplit path).length - 1]! ≠ "logout")
    (hname : (goSplit path)[(goSplit path).length - 2]! = name) :
    Provider s name = Except.error ("provider " ++ name ++ " not found") ∧
    providerHandler s path
        = Outcome.respond 400 (Body.jsonError ("provider " ++ name ++ " not supported")) ∧
    ("provider " ++ name ++ " not found") ≠ ("provider " ++ name ++ " not supported") := by
  have hfind : s.providers.find? (fun p => p.Name = name) = none := by
    rw [List.find?_eq_none]
    intro p hp
    simpa using hn p hp
  have hprov : Provider s name = Except.error ("provider " ++ name ++ " not found") := by
    unfold Provider
    rw [hfind]
  refine ⟨hprov, ?_, ?_⟩
  · simp only [providerHandler]
    rw [if_neg (by omega), if_neg hlist, if_neg hlogout, hname, hprov]
  · intro hEq
    have hl : ("provider " ++ name ++ " not found").length
        = ("provider " ++ name ++ " not supported").length := by rw [hEq]
    have hf : (" not found" : String).length = 10 := by decide
    have hs : (" not supported" : String).length = 14 := by decide
    simp only [String.length_append, hf, hs] at hl
    omega

/-- C7 witness: the lookup and dispatch messages at the unknown name "foo"
with the path "/auth/foo/login" against the empty registry. -/
theorem unknown_provider_error_strings_witness :
    Provider svc0 "foo" = Except.error "provider foo not found" ∧
    providerHandler svc0 "/auth/foo/login"
        = Outcome.respond 400 (Body.jsonError "provider foo not supported") ∧
    ("provider foo not found" : String) ≠ "provider foo not supported" :=
  unknown_provider_error_strings svc0 "foo" "/auth/foo/login"
    (by decide) (by decide) (by decide) (by decide) (by decide)

/-- C8: after any sequence of `AddProvider` registrations the registry is the
initial registry extended, in call order, with exactly the descriptors of the
supported registrations (duplicates kept), and dispatching any request whose
final segment is "list" responds 200 with the JSON array of the registered
provider names in that registry order. -/
theorem list_reflects_registration_order (s : Service)
    (regs : List (String × String × String)) (path : String)
    (h2 : 2 ≤ (goSplit path).length)
    (hlast : (goSplit path)[(goSplit path).length - 1]! = "list") :
    (addAll s regs).providers
        = s.providers ++ regs.filterMap (fun r => expectedDescriptor s r.1 r.2.1 r.2.2) ∧
    providerHandler (addAll s regs) path
        = Outcome.respond 200
            (Body.jsonList ((addAll s regs).providers.map (fun p => p.Name))) := by
  refine ⟨addAll_providers s regs, ?_⟩
  simp only [providerHandler]
  rw [if_neg (by omega), if_pos hlast]

/-- C8 witness: registering "dev", "github" and "dev" again, then dispatching
"/auth/list", yields the name array ["dev", "github", "dev"] — registration
order with the duplicate kept. -/
theorem list_reflects_registration_order_witness :
    providerHandler (addAll svc0 [("dev", "c1", "s1"), ("github", "c2", "s2"), ("dev", "c3", "s3")])
        "/auth/list"
      = Outcome.respond 200 (Body.jsonList ["dev", "github", "dev"]) := by
  have h := list_reflects_registration_order svc0
    [("dev", "c1", "s1"), ("github", "c2", "s2"), ("dev", "c3", "s3")]
    "/auth/list" (by decide) (by decide)
  rw [h.2]
  decide

/-- C10 counterexample: the single-segment path "list" has final segment
"list", yet the handler does not take the list special case: the
sub-2-segments guard fires first and it responds 400 with an empty body
instead of the 200 provider listing. -/
theorem single_segment_list_not_special :
    providerHandler (AddProvider svc0 "dev" "cid" "csecret") "list"
        = Outcome.respond 400 Body.empty ∧
    providerHandler (AddProvider svc0 "dev" "cid" "csecret") "list"
        ≠ Outcome.respond 200 (Body.jsonList ["dev"]) := by
  decide

/-- C10 amended: for every registry state and every request whose path splits
into at least two segments, a final segment "list" takes the listing branch
and a final segment "logout" takes the logout branch (first registered
provider, or a panic on the empty registry) — in both cases before, and
instead of, any provider-name lookup on the second-to-last segment; hence the
only provider handler reachable through such a request is the first
registered provider, for "logout". -/
theorem special_segments_precede_lookup (s : Service) (path : String)
    (h2 : 2 ≤ (goSplit path).length) :
    ((goSplit path)[(goSplit path).length - 1]! = "list" →
        providerHandler s path
          = Outcome.respond 200 (Body.jsonList (s.providers.map (fun p => p.Name)))) ∧
    ((goSplit path)[(goSplit path).length - 1]! = "logout" →
        providerHandler s path
          = (match s.providers with
             | [] => Outcome.panic
             | p :: _ => Outcome.delegate p)) ∧
    (∀ p : ProviderService,
        (goSplit path)[(goSplit path).length - 1]! = "list" ∨
          (goSplit path)[(goSplit path).length - 1]! = "logout" →
        providerHandler s path = Outcome.delegate p → s.providers.head? = some p) := by
  have hlistEq : (goSplit path)[(goSplit path).length - 1]! = "list" →
      providerHandler s path
        = Outcome.respond 200 (Body.jsonList (s.providers.map (fun p => p.Name))) := by
    intro hlist
    simp only [providerHandler]
    rw [if_neg (by omega), if_pos hlist]
  have hlogoutEq : (goSplit path)[(goSplit path).length - 1]! = "logout" →
      providerHandler s path
        = (match s.providers with
           | [] => Outcome.panic
           | p :: _ => Outcome.delegate p) := by
    intro hlogout
    simp only [providerHandler]
    rw [if_neg (by omega), if_neg (by rw [hlogout]; decide), if_pos hlogout]
  refine ⟨hlistEq, hlogoutEq, ?_⟩
  intro p hor hdel
  rcases hor with hlist | hlogout
  · rw [hlistEq hlist] at hdel
    exact absurd hdel (by simp)
  · rw [hlogoutEq hlogout] at hdel
    cases hps : s.providers with
    | nil => rw [hps] at hdel; exact absurd hdel (by simp)
    | cons q qs =>
        rw [hps] at hdel
        simp only [Outcome.delegate.injEq] at hdel
        simp [hdel]

/-- C10 witness: the amended statement at the path "/auth/anything/logout"
against a registry holding one "dev" provider: the request is delegated to
that first registered provider. -/
theorem special_segments_precede_lookup_witness :
    providerHandler (AddProvider svc0 "dev" "cid" "csecret") "/auth/anything/logout"
      = Outcome.delegate (NewDev (mkParams svc0 "cid" "csecret")) := by
  have h := special_segments_precede_lookup
    (AddProvider svc0 "dev" "cid" "csecret") "/auth/anything/logout" (by decide)
  rw [h.2.1 (by decide)]
  decide

end Auth
